import Mathlib

/-!
Verification development for the gw2gd trading-post client
(src/client.rs, src/gw2_api.rs).

Modelling conventions:
* The rate limiter's f64 token arithmetic is embedded over ℚ (exact real
  arithmetic); no claim under verification depends on float rounding.
* Time is explicit: each operation that reads the clock takes the current
  instant `now : ℚ` (seconds) as an argument, and operations that sleep take
  the resumption instant `resume : ℚ` as an argument, standing for the value
  of `Instant::now()` observed after the sleep.
* `Instant::duration_since` saturates below at zero, which appears as
  `max 0 (now - last)`.
* `Cell`-based in-place mutation becomes explicit state passing: each
  operation returns its result together with the successor state.
-/

/-! ### Rate limiter state (src/client.rs, `mod rate_limiter`) -/

structure RateLimiter where
  /-- Maximum capacity of tokens (`capacity: u32`). -/
  capacity : ℕ
  /-- Rate at which tokens refill, tokens per second (`refill_rate: f64`). -/
  refill_rate : ℚ
  /-- Available tokens (`available_tokens: Cell<f64>`). -/
  available_tokens : ℚ
  /-- Last time tokens were calculated (`last_update: Cell<Instant>`). -/
  last_update : ℚ
deriving Repr, DecidableEq

/-- `RateLimiter::new(capacity, tokens_per_second)`, with `now` the value of
`Instant::now()` at construction. -/
def RateLimiter.new (capacity : ℕ) (tokens_per_second : ℚ) (now : ℚ) :
    RateLimiter :=
  { capacity := capacity
    refill_rate := tokens_per_second
    available_tokens := 0
    last_update := now }

/-- Elapsed seconds since the last update; `Instant::duration_since`
saturates at zero. -/
def RateLimiter.elapsedSince (s : RateLimiter) (now : ℚ) : ℚ :=
  max 0 (now - s.last_update)

/-- `RateLimiter::calculate_current_tokens`: refill based on elapsed time,
capped at capacity; a no-op when no time has elapsed. -/
def RateLimiter.calculate_current_tokens (s : RateLimiter) (now : ℚ) :
    RateLimiter :=
  let elapsed := s.elapsedSince now
  if 0 < elapsed then
    let new_tokens := s.refill_rate * elapsed
    let current := s.available_tokens
    let updated := min (current + new_tokens) (s.capacity : ℚ)
    { s with available_tokens := updated, last_update := now }
  else
    s

/-- `RateLimiter::try_acquire(tokens)`: recompute, then either debit and
succeed or fail leaving the recomputed state untouched. Non-suspending. -/
def RateLimiter.try_acquire (s : RateLimiter) (now : ℚ) (tokens : ℕ) :
    Bool × RateLimiter :=
  let s := s.calculate_current_tokens now
  let available := s.available_tokens
  if available < (tokens : ℚ) then
    (false, s)
  else
    (true, { s with available_tokens := available - (tokens : ℚ) })

/-- `RateLimiter::acquire(tokens)`: recompute; debit immediately when enough
tokens are available, otherwise zero the bucket, sleep for
`(tokens - available) / refill_rate` seconds and set `last_update` to the
resumption instant. The first component is the slept duration (zero on the
immediate path). -/
def RateLimiter.acquire (s : RateLimiter) (now resume : ℚ) (tokens : ℕ) :
    ℚ × RateLimiter :=
  let s := s.calculate_current_tokens now
  let available := s.available_tokens
  if (tokens : ℚ) ≤ available then
    (0, { s with available_tokens := available - (tokens : ℚ) })
  else
    let tokens_needed := (tokens : ℚ) - available
    let wait_time := tokens_needed / s.refill_rate
    (wait_time, { s with available_tokens := 0, last_update := resume })

/-- `RateLimiter::acquire_with_timeout(tokens, timeout)`: as `acquire`, but
when the required wait exceeds the timeout it fails, leaving the recomputed
state untouched. -/
def RateLimiter.acquire_with_timeout (s : RateLimiter) (now resume : ℚ)
    (tokens : ℕ) (timeout : ℚ) : Bool × RateLimiter :=
  let s := s.calculate_current_tokens now
  let available := s.available_tokens
  if (tokens : ℚ) ≤ available then
    (true, { s with available_tokens := available - (tokens : ℚ) })
  else
    let tokens_needed := (tokens : ℚ) - available
    let required_wait := tokens_needed / s.refill_rate
    if timeout < required_wait then
      (false, s)
    else
      (true, { s with available_tokens := 0, last_update := resume })

/-- `RateLimiter::available()`: recompute and report the token count. -/
def RateLimiter.available (s : RateLimiter) (now : ℚ) : ℚ × RateLimiter :=
  let s := s.calculate_current_tokens now
  (s.available_tokens, s)

/-- The token-bucket invariant stated by the spec. -/
def RateLimiter.Inv (s : RateLimiter) : Prop :=
  0 ≤ s.available_tokens ∧ s.available_tokens ≤ (s.capacity : ℚ)

instance (s : RateLimiter) : Decidable s.Inv := by
  unfold RateLimiter.Inv; infer_instance

example : (RateLimiter.new 5 1 0).try_acquire 0 6 =
    (false, RateLimiter.new 5 1 0) := by
  simp [RateLimiter.try_acquire, RateLimiter.calculate_current_tokens,
    RateLimiter.elapsedSince, RateLimiter.new]

example : ((RateLimiter.new 5 9 0).try_acquire 1 3).2.available_tokens = 2 := by
  norm_num [RateLimiter.try_acquire, RateLimiter.calculate_current_tokens,
    RateLimiter.elapsedSince, RateLimiter.new]

/-! ### Pagination data model (src/client.rs) -/

/-- `PaginationParams { page, page_size }`. -/
structure PaginationParams where
  page : ℕ
  page_size : ℕ
deriving Repr, DecidableEq

/-- `DEFAULT_PAGE_SIZE`. -/
def DEFAULT_PAGE_SIZE : ℕ := 200

/-- `PaginationParams::default()`. -/
def PaginationParams.default : PaginationParams :=
  { page := 0, page_size := DEFAULT_PAGE_SIZE }

/-- `PaginationParams::next()`. -/
def PaginationParams.next (p : PaginationParams) : PaginationParams :=
  { page := p.page + 1, page_size := p.page_size }

/-- `PaginationParams::to_query_string()`. -/
def PaginationParams.to_query_string (p : PaginationParams) : String :=
  "page=" ++ toString p.page ++ "&page_size=" ++ toString p.page_size

/-- `PaginationMetadata`, parsed from the four response headers. -/
structure PaginationMetadata where
  page_size : ℕ
  page_total : ℕ
  result_count : ℕ
  result_total : ℕ
deriving Repr, DecidableEq

/-- `Paginated<T>`: a page body together with its metadata. -/
structure Paginated (T : Type) where
  data : T
  metadata : PaginationMetadata
deriving Repr, DecidableEq

/-- `PaginatedGetError` (src/client.rs). Error payloads that are opaque to
the claims (reqwest errors, boxed parse errors) are carried as strings. -/
inductive PaginatedGetError where
  | Http (msg : String)
  | RequestFailedWithBody (status : ℕ) (url : String) (body : String)
  | HeaderParseError (header_name : String) (source : String)
  | MissingHeaderError (header_name : String)
  | DeserializationError (msg : String)
deriving Repr, DecidableEq

/-! ### Response headers and `parse_required_header` -/

/-- A raw `reqwest::header::HeaderValue`: a byte string that may or may not
be valid UTF-8. `is_utf8 = true` means `HeaderValue::to_str` succeeds and
returns `text`. -/
structure HeaderValue where
  is_utf8 : Bool
  text : String
deriving Repr, DecidableEq

/-- Lower-case an ASCII letter, identity elsewhere. -/
def asciiLower (c : Char) : Char :=
  if 'A' ≤ c ∧ c ≤ 'Z' then Char.ofNat (c.toNat + 32) else c

/-- Header-name comparison is ASCII case-insensitive (reqwest `HeaderMap`
stores lower-cased names and `get` accepts any casing). -/
def headerNameMatches (a b : String) : Bool :=
  a.toList.map asciiLower == b.toList.map asciiLower

/-- `HeaderMap` modelled as an association list; `HeaderMap::get`. -/
def headerGet (headers : List (String × HeaderValue)) (name : String) :
    Option HeaderValue :=
  (headers.find? (fun kv => headerNameMatches kv.1 name)).map Prod.snd

/-- Rust `str::parse::<usize>`: optional leading `+`, then one or more
ASCII digits and nothing else. (The `usize` overflow failure mode is not
modelled; ℕ is unbounded and no claim exercises overflow.) -/
def parseUsize (s : String) : Option ℕ :=
  let digits := match s.toList with
    | '+' :: rest => rest
    | chars => chars
  if digits.isEmpty then none
  else if digits.all Char.isDigit then
    some (digits.foldl (fun acc c => acc * 10 + (c.toNat - 48)) 0)
  else none

/-- `parse_required_header` (src/client.rs, inside `get_paginated`):
missing header, non-UTF-8 header bytes and integer-parse failure each map
to their own error, in that order of checks. -/
def parse_required_header (headers : List (String × HeaderValue))
    (header_name : String) : Except PaginatedGetError ℕ :=
  match headerGet headers header_name with
  | none => .error (.MissingHeaderError header_name)
  | some v =>
    if v.is_utf8 then
      match parseUsize v.text with
      | some n => .ok n
      | none => .error (.HeaderParseError header_name
          "invalid digit found in string")
    else
      .error (.HeaderParseError header_name
        "failed to convert header to a str")

/-! ### `get_paginated` -/

/-- An HTTP response as `get_paginated` observes it: status code, headers,
the body as text (used for error reporting) and the result of decoding the
body as JSON into `Body` (`response.json()`), which `get_paginated` only
consults after the headers. -/
structure HttpResponse (Body : Type) where
  status : ℕ
  headers : List (String × HeaderValue)
  body_text : String
  body_json : Except String Body

/-- `StatusCode::is_success()`: 2xx. -/
def statusIsSuccess (status : ℕ) : Bool :=
  decide (200 ≤ status ∧ status < 300)

/-- URL construction in `get_paginated`: append the query string with `&`
if the base URL already contains `?`, else with `?`. -/
def paginatedUrl (base_url : String) (params : PaginationParams) : String :=
  if base_url.toList.contains '?' then
    base_url ++ "&" ++ params.to_query_string
  else
    base_url ++ "?" ++ params.to_query_string

/-- `Client::get_paginated` (src/client.rs). The transport is abstracted as
`send : url → Except transportError response`. The `rate_limiter.acquire(1)`
gate is modelled separately by `RateLimiter.acquire`; no pagination claim
depends on it, so it is not threaded through here. -/
def get_paginated {Body : Type}
    (send : String → Except String (HttpResponse Body))
    (base_url : String) (params : PaginationParams) :
    Except PaginatedGetError (Paginated Body) :=
  let url := paginatedUrl base_url params
  match send url with
  | .error e => .error (.Http e)
  | .ok response =>
    if statusIsSuccess response.status then
      match parse_required_header response.headers "X-Page-Size" with
      | .error e => .error e
      | .ok page_size =>
        match parse_required_header response.headers "X-Page-Total" with
        | .error e => .error e
        | .ok page_total =>
          match parse_required_header response.headers "X-Result-Count" with
          | .error e => .error e
          | .ok result_count =>
            match parse_required_header response.headers "X-Result-Total" with
            | .error e => .error e
            | .ok result_total =>
              match response.body_json with
              | .error e => .error (.DeserializationError e)
              | .ok data =>
                .ok { data := data
                      metadata := { page_size := page_size
                                    page_total := page_total
                                    result_count := result_count
                                    result_total := result_total } }
    else
      .error (.RequestFailedWithBody response.status (paginatedUrl base_url params)
        response.body_text)

/-- The four required pagination headers, in the order `get_paginated`
parses them. -/
def requiredHeaders : List String :=
  ["X-Page-Size", "X-Page-Total", "X-Result-Count", "X-Result-Total"]

/-! ### `get_all_pages` (src/client.rs)

The per-page fetch is abstracted as
`fetch : PaginationParams → Except PaginatedGetError (Paginated (List Item))`,
standing for `fun params => get_paginated send base_url params`; every call of
`fetch` is one HTTP page fetch. The aggregator is instrumented: it returns
the sequence of page fetches it issued (in order) alongside the result, so
that the number, indices and ordering of HTTP calls are part of the model. -/

/-- The `for page in 1..page_total` loop body of `get_all_pages`, recursing
on the number of remaining iterations (`page_total - 1` at the outer call).
Returns the fetches issued by the loop and either the aggregated items or
the first error (which stops the loop). -/
def fetchRemaining {Item : Type}
    (fetch : PaginationParams → Except PaginatedGetError (Paginated (List Item)))
    (params : PaginationParams) (acc : List Item) :
    ℕ → List PaginationParams × Except PaginatedGetError (List Item)
  | 0 => ([], .ok acc)
  | n + 1 =>
    let current := params.next
    match fetch current with
    | .error e => ([current], .error e)
    | .ok response =>
      let rest := fetchRemaining fetch current (acc ++ response.data) n
      (current :: rest.1, rest.2)

/-- `Client::get_all_pages`: fetch page 0, then pages `1..page_total` via
`PaginationParams::next`, concatenating page data in order; any page error
aborts the aggregation. First component: the page fetches issued. -/
def get_all_pages {Item : Type}
    (fetch : PaginationParams → Except PaginatedGetError (Paginated (List Item)))
    (params : PaginationParams) :
    List PaginationParams × Except PaginatedGetError (List Item) :=
  match fetch params with
  | .error e => ([params], .error e)
  | .ok first_response =>
    let rest := fetchRemaining fetch params first_response.data
      (first_response.metadata.page_total - 1)
    (params :: rest.1, rest.2)

/-! ### Batch lookups (src/gw2_api.rs)

`get_many_listings` and `get_many_prices` are instrumented the same way:
the first component is the list of URLs actually requested over HTTP. Each
HTTP request goes through `Client::get`, which debits one rate-limiter
token; an empty request list therefore also means no token was consumed. -/

/-- `GW2_API_DOMAIN`. -/
def GW2_API_DOMAIN : String := "https://api.guildwars2.com"

/-- `build_url`. -/
def build_url (endpoint : String) : String := GW2_API_DOMAIN ++ endpoint

/-- `ItemId(u32)`; `Display` renders the number in decimal. -/
structure ItemId where
  val : ℕ
deriving Repr, DecidableEq

/-- `GetError` (src/client.rs), for non-paginated `get`. -/
inductive GetError where
  | Http (msg : String)
  | RequestFailedWithBody (status : ℕ) (url : String) (body : String)
deriving Repr, DecidableEq

/-- `ListingItem` (src/gw2_api.rs, mod listings). -/
structure ListingItem where
  listings : ℕ
  unit_price : ℕ
  quantity : ℕ
deriving Repr, DecidableEq

/-- `Listings` (src/gw2_api.rs, mod listings). -/
structure Listings where
  id : ItemId
  buys : List ListingItem
  sells : List ListingItem
deriving Repr, DecidableEq

/-- `GetManyListingsError` (src/gw2_api.rs, mod listings). -/
inductive GetManyListingsError where
  | TooManyListingIds (count : ℕ)
  | ClientError (e : GetError)
deriving Repr, DecidableEq

/-- `PriceInfo` (src/gw2_api.rs, mod prices). -/
structure PriceInfo where
  unit_price : ℕ
  quantity : ℕ
deriving Repr, DecidableEq

/-- `Price` (src/gw2_api.rs, mod prices). -/
structure Price where
  id : ItemId
  whitelisted : Bool
  buys : PriceInfo
  sells : PriceInfo
deriving Repr, DecidableEq

/-- `GetManyPricesError` (src/gw2_api.rs, mod prices). -/
inductive GetManyPricesError where
  | TooManyItemIds (count : ℕ)
  | ClientError (e : GetError)
deriving Repr, DecidableEq

/-- The comma-separated id list built by the `fold` in `get_many_listings`
and `get_many_prices`. -/
def idsParam (ids : List ItemId) : String :=
  ids.foldl (fun acc id =>
    (if acc.isEmpty then acc else acc ++ ",") ++ toString id.val) ""

/-- `listings::get_many_listings`: reject more than 200 ids before any
network call, short-circuit an empty id list, otherwise issue one `get`.
`get` abstracts `Client::get` at the built URL. -/
def get_many_listings (get : String → Except GetError (List Listings))
    (item_ids : List ItemId) :
    List String × Except GetManyListingsError (List Listings) :=
  if 200 < item_ids.length then
    ([], .error (.TooManyListingIds item_ids.length))
  else if item_ids.isEmpty then
    ([], .ok [])
  else
    let url := build_url ("/v2/commerce/listings?ids=" ++ idsParam item_ids)
    ([url], match get url with
      | .ok v => .ok v
      | .error e => .error (.ClientError e))

/-- `prices::get_many_prices`: same structure as `get_many_listings`. -/
def get_many_prices (get : String → Except GetError (List Price))
    (ids : List ItemId) :
    List String × Except GetManyPricesError (List Price) :=
  if 200 < ids.length then
    ([], .error (.TooManyItemIds ids.length))
  else if ids.isEmpty then
    ([], .ok [])
  else
    let url := build_url ("/v2/commerce/prices?ids=" ++ idsParam ids)
    ([url], match get url with
      | .ok v => .ok v
      | .error e => .error (.ClientError e))

/-! ### Helper lemmas about the rate limiter -/

theorem calculate_capacity_eq (s : RateLimiter) (now : ℚ) :
    (s.calculate_current_tokens now).capacity = s.capacity := by
  unfold RateLimiter.calculate_current_tokens
  dsimp only
  split <;> rfl

theorem calculate_refill_rate_eq (s : RateLimiter) (now : ℚ) :
    (s.calculate_current_tokens now).refill_rate = s.refill_rate := by
  unfold RateLimiter.calculate_current_tokens
  dsimp only
  split <;> rfl

/-! ### Claim theorems: rate limiter operations -/

/-- C5: for every call of `try_acquire(n)`, after first recomputing
available tokens, if at least `n` tokens are available the call debits `n`
and succeeds; otherwise it fails and leaves the recomputed state unchanged,
without suspending. -/
theorem try_acquire_spec (s : RateLimiter) (now : ℚ) (n : ℕ) :
    ((n : ℚ) ≤ (s.calculate_current_tokens now).available_tokens →
      s.try_acquire now n =
        (true, { s.calculate_current_tokens now with
                   available_tokens :=
                     (s.calculate_current_tokens now).available_tokens - (n : ℚ) })) ∧
    ((s.calculate_current_tokens now).available_tokens < (n : ℚ) →
      s.try_acquire now n = (false, s.calculate_current_tokens now)) := by
  constructor
  · intro h
    unfold RateLimiter.try_acquire
    rw [if_neg (not_lt.mpr h)]
  · intro h
    unfold RateLimiter.try_acquire
    rw [if_pos h]

/-- Witness for C5 at concrete inputs: a limiter with capacity 5 and refill
rate 9 holds 5 tokens one second after construction, so `try_acquire 3`
succeeds there; immediately after construction it holds 0 tokens, so
`try_acquire 6` fails there. -/
theorem try_acquire_spec_witness :
    ((3 : ℚ) ≤ ((RateLimiter.new 5 9 0).calculate_current_tokens 1).available_tokens ∧
      (RateLimiter.new 5 9 0).try_acquire 1 3 =
        (true, { (RateLimiter.new 5 9 0).calculate_current_tokens 1 with
                   available_tokens :=
                     ((RateLimiter.new 5 9 0).calculate_current_tokens 1).available_tokens - (3 : ℚ) })) ∧
    (((RateLimiter.new 5 1 0).calculate_current_tokens 0).available_tokens < (6 : ℚ) ∧
      (RateLimiter.new 5 1 0).try_acquire 0 6 =
        (false, (RateLimiter.new 5 1 0).calculate_current_tokens 0)) := by
  have h1 : (3 : ℚ) ≤ ((RateLimiter.new 5 9 0).calculate_current_tokens 1).available_tokens := by
    norm_num [RateLimiter.calculate_current_tokens, RateLimiter.elapsedSince,
      RateLimiter.new]
  have h2 : ((RateLimiter.new 5 1 0).calculate_current_tokens 0).available_tokens < (6 : ℚ) := by
    norm_num [RateLimiter.calculate_current_tokens, RateLimiter.elapsedSince,
      RateLimiter.new]
  exact ⟨⟨h1, (try_acquire_spec (RateLimiter.new 5 9 0) 1 3).1 h1⟩,
         ⟨h2, (try_acquire_spec (RateLimiter.new 5 1 0) 0 6).2 h2⟩⟩

/-- C4: for every call of `acquire(n)` in which the recomputed available
token count is below `n`, the operation zeroes the bucket, sleeps for
exactly `(n - availableTokens) / refillRate` seconds, and sets
`last_update` to the resumption instant without re-adding tokens, so the
available count immediately after it returns is 0. -/
theorem acquire_wait_spec (s : RateLimiter) (now resume : ℚ) (n : ℕ)
    (h : (s.calculate_current_tokens now).available_tokens < (n : ℚ)) :
    s.acquire now resume n =
      (((n : ℚ) - (s.calculate_current_tokens now).available_tokens) / s.refill_rate,
       { s.calculate_current_tokens now with
           available_tokens := 0, last_update := resume }) ∧
    (s.acquire now resume n).2.available_tokens = 0 ∧
    (s.acquire now resume n).2.last_update = resume := by
  have hmain : s.acquire now resume n =
      (((n : ℚ) - (s.calculate_current_tokens now).available_tokens) / s.refill_rate,
       { s.calculate_current_tokens now with
           available_tokens := 0, last_update := resume }) := by
    unfold RateLimiter.acquire
    rw [if_neg (not_le.mpr h)]
    simp [calculate_refill_rate_eq]
  exact ⟨hmain, by rw [hmain], by rw [hmain]⟩

/-- Witness for C4: a freshly constructed limiter (capacity 5, rate 1) has
0 tokens, so `acquire 1` at construction time sleeps for exactly 1 second
and leaves 0 tokens with `last_update` at the resumption instant. -/
theorem acquire_wait_spec_witness :
    ((RateLimiter.new 5 1 0).calculate_current_tokens 0).available_tokens < (1 : ℚ) ∧
    (RateLimiter.new 5 1 0).acquire 0 1 1 =
      (((1 : ℚ) - ((RateLimiter.new 5 1 0).calculate_current_tokens 0).available_tokens) /
         (RateLimiter.new 5 1 0).refill_rate,
       { (RateLimiter.new 5 1 0).calculate_current_tokens 0 with
           available_tokens := 0, last_update := 1 }) := by
  have h : ((RateLimiter.new 5 1 0).calculate_current_tokens 0).available_tokens < (1 : ℚ) := by
    norm_num [RateLimiter.calculate_current_tokens, RateLimiter.elapsedSince,
      RateLimiter.new]
  exact ⟨h, (acquire_wait_spec (RateLimiter.new 5 1 0) 0 1 1 h).1⟩

/-- C3: for every call of `acquire_with_timeout(n, t)`: with at least `n`
recomputed tokens it debits and succeeds immediately; otherwise, with
`waitSeconds = (n - availableTokens) / refillRate`, it fails leaving the
recomputed token state unchanged whenever `waitSeconds > t`, and otherwise
zeroes the bucket, waits, and succeeds. -/
theorem acquire_with_timeout_spec (s : RateLimiter) (now resume timeout : ℚ)
    (n : ℕ) :
    ((n : ℚ) ≤ (s.calculate_current_tokens now).available_tokens →
      s.acquire_with_timeout now resume n timeout =
        (true, { s.calculate_current_tokens now with
                   available_tokens :=
                     (s.calculate_current_tokens now).available_tokens - (n : ℚ) })) ∧
    ((s.calculate_current_tokens now).available_tokens < (n : ℚ) →
      timeout <
        ((n : ℚ) - (s.calculate_current_tokens now).available_tokens) / s.refill_rate →
      s.acquire_with_timeout now resume n timeout =
        (false, s.calculate_current_tokens now)) ∧
    ((s.calculate_current_tokens now).available_tokens < (n : ℚ) →
      ((n : ℚ) - (s.calculate_current_tokens now).available_tokens) / s.refill_rate ≤
        timeout →
      s.acquire_with_timeout now resume n timeout =
        (true, { s.calculate_current_tokens now with
                   available_tokens := 0, last_update := resume })) := by
  refine ⟨?_, ?_, ?_⟩
  · intro h
    unfold RateLimiter.acquire_with_timeout
    rw [if_pos h]
  · intro h ht
    unfold RateLimiter.acquire_with_timeout
    rw [if_neg (not_le.mpr h), calculate_refill_rate_eq, if_pos ht]
  · intro h ht
    unfold RateLimiter.acquire_with_timeout
    rw [if_neg (not_le.mpr h), calculate_refill_rate_eq, if_neg (not_lt.mpr ht)]
    simp [calculate_refill_rate_eq]

/-- Witness for C3, exercising the timeout-failure branch and the
wait-success branch on a drained limiter (capacity 5, rate 1, 0 tokens):
`acquire_with_timeout 2` with timeout 1 needs a 2-second wait and fails with
the recomputed state untouched; `acquire_with_timeout 1` with timeout 2
needs a 1-second wait and succeeds, zeroing the bucket. -/
theorem acquire_with_timeout_spec_witness :
    (((RateLimiter.new 5 1 0).calculate_current_tokens 0).available_tokens < (2 : ℚ) ∧
     (1 : ℚ) < ((2 : ℚ) - ((RateLimiter.new 5 1 0).calculate_current_tokens 0).available_tokens) /
       (RateLimiter.new 5 1 0).refill_rate ∧
     (RateLimiter.new 5 1 0).acquire_with_timeout 0 2 2 1 =
       (false, (RateLimiter.new 5 1 0).calculate_current_tokens 0)) ∧
    (((RateLimiter.new 5 1 0).calculate_current_tokens 0).available_tokens < (1 : ℚ) ∧
     ((1 : ℚ) - ((RateLimiter.new 5 1 0).calculate_current_tokens 0).available_tokens) /
       (RateLimiter.new 5 1 0).refill_rate ≤ (2 : ℚ) ∧
     (RateLimiter.new 5 1 0).acquire_with_timeout 0 1 1 2 =
       (true, { (RateLimiter.new 5 1 0).calculate_current_tokens 0 with
                  available_tokens := 0, last_update := 1 })) := by
  have h2 : ((RateLimiter.new 5 1 0).calculate_current_tokens 0).available_tokens < (2 : ℚ) := by
    norm_num [RateLimiter.calculate_current_tokens, RateLimiter.elapsedSince,
      RateLimiter.new]
  have ht2 : (1 : ℚ) <
      ((2 : ℚ) - ((RateLimiter.new 5 1 0).calculate_current_tokens 0).available_tokens) /
        (RateLimiter.new 5 1 0).refill_rate := by
    norm_num [RateLimiter.calculate_current_tokens, RateLimiter.elapsedSince,
      RateLimiter.new]
  have h1 : ((RateLimiter.new 5 1 0).calculate_current_tokens 0).available_tokens < (1 : ℚ) := by
    norm_num [RateLimiter.calculate_current_tokens, RateLimiter.elapsedSince,
      RateLimiter.new]
  have ht1 : ((1 : ℚ) - ((RateLimiter.new 5 1 0).calculate_current_tokens 0).available_tokens) /
      (RateLimiter.new 5 1 0).refill_rate ≤ (2 : ℚ) := by
    norm_num [RateLimiter.calculate_current_tokens, RateLimiter.elapsedSince,
      RateLimiter.new]
  exact ⟨⟨h2, ht2, (acquire_with_timeout_spec (RateLimiter.new 5 1 0) 0 2 1 2).2.1 h2 ht2⟩,
         ⟨h1, ht1, (acquire_with_timeout_spec (RateLimiter.new 5 1 0) 0 1 2 1).2.2 h1 ht1⟩⟩

/-- A freshly constructed limiter is untouched by an immediate
recomputation (no time has elapsed). -/
theorem calculate_new_self (cap : ℕ) (rate t0 : ℚ) :
    (RateLimiter.new cap rate t0).calculate_current_tokens t0 =
      RateLimiter.new cap rate t0 := by
  unfold RateLimiter.calculate_current_tokens RateLimiter.elapsedSince
    RateLimiter.new
  norm_num

/-- C9: a newly constructed `RateLimiter` starts with 0 available tokens,
not `capacity`: with no elapsed time since construction, `try_acquire n`
fails for every `n ≥ 1` (leaving the state unchanged), and the first
`acquire n` sleeps for exactly `n / refill_rate` seconds. -/
theorem rate_limiter_new_empty (cap : ℕ) (rate t0 resume : ℚ) (n : ℕ)
    (hn : 1 ≤ n) (hrate : 0 < rate) :
    (RateLimiter.new cap rate t0).available_tokens = 0 ∧
    (RateLimiter.new cap rate t0).try_acquire t0 n =
      (false, RateLimiter.new cap rate t0) ∧
    ((RateLimiter.new cap rate t0).acquire t0 resume n).1 = (n : ℚ) / rate := by
  have hlt : ((RateLimiter.new cap rate t0).calculate_current_tokens t0).available_tokens
      < (n : ℚ) := by
    rw [calculate_new_self]
    show (0 : ℚ) < (n : ℚ)
    exact_mod_cast hn
  refine ⟨rfl, ?_, ?_⟩
  · have h := (try_acquire_spec (RateLimiter.new cap rate t0) t0 n).2 hlt
    rw [h, calculate_new_self]
  · have h := (acquire_wait_spec (RateLimiter.new cap rate t0) t0 resume n hlt).1
    rw [h]
    rw [calculate_new_self]
    show ((n : ℚ) - 0) / rate = (n : ℚ) / rate
    ring

/-- Witness for C9: capacity 300, refill rate 5, requesting 1 token
immediately after construction. -/
theorem rate_limiter_new_empty_witness :
    (1 ≤ 1 ∧ (0 : ℚ) < 5) ∧
    ((RateLimiter.new 300 5 0).available_tokens = 0 ∧
     (RateLimiter.new 300 5 0).try_acquire 0 1 = (false, RateLimiter.new 300 5 0) ∧
     ((RateLimiter.new 300 5 0).acquire 0 1 1).1 = (1 : ℚ) / 5) :=
  ⟨⟨le_refl 1, by norm_num⟩,
   rate_limiter_new_empty 300 5 0 1 1 (le_refl 1) (by norm_num)⟩

/-- C6: every token recomputation yields
`min(capacity, availableTokens + refillRate * elapsedSeconds)` with
`last_update` advanced to `now` (given a monotone clock, a nonnegative
refill rate and the invariant at entry), and the invariant
`0 ≤ availableTokens ≤ capacity` holds after the recomputation and after
each of `try_acquire`, `acquire`, `acquire_with_timeout` and `available`. -/
theorem token_bucket_invariant (s : RateLimiter) (now resume timeout : ℚ)
    (n : ℕ) (hInv : s.Inv) (hmono : s.last_update ≤ now)
    (hrate : 0 ≤ s.refill_rate) :
    s.calculate_current_tokens now =
      { capacity := s.capacity
        refill_rate := s.refill_rate
        available_tokens :=
          min ((s.capacity : ℚ))
            (s.available_tokens + s.refill_rate * (now - s.last_update))
        last_update := now } ∧
    (s.calculate_current_tokens now).Inv ∧
    (s.try_acquire now n).2.Inv ∧
    (s.acquire now resume n).2.Inv ∧
    (s.acquire_with_timeout now resume n timeout).2.Inv ∧
    (s.available now).2.Inv := by
  have helapsed : s.elapsedSince now = now - s.last_update := by
    unfold RateLimiter.elapsedSince
    exact max_eq_right (by linarith)
  have hcalc : s.calculate_current_tokens now =
      { capacity := s.capacity
        refill_rate := s.refill_rate
        available_tokens :=
          min ((s.capacity : ℚ))
            (s.available_tokens + s.refill_rate * (now - s.last_update))
        last_update := now } := by
    unfold RateLimiter.calculate_current_tokens
    rw [helapsed]
    dsimp only
    split
    · rw [min_comm]
    · rename_i hnot
      have hz : now - s.last_update = 0 := by
        by_contra hne
        exact hnot (lt_of_le_of_ne (by linarith) (Ne.symm hne))
      have hupd : now = s.last_update := by linarith
      have hmin : min ((s.capacity : ℚ))
          (s.available_tokens + s.refill_rate * (now - s.last_update)) =
          s.available_tokens := by
        rw [hz, mul_zero, add_zero]
        exact min_eq_right hInv.2
      rw [hmin, hupd]
  have hInvCalc : (s.calculate_current_tokens now).Inv := by
    rw [hcalc]
    constructor
    · exact le_min (by positivity)
        (by have := hInv.1; nlinarith [mul_nonneg hrate (sub_nonneg.mpr hmono)])
    · exact min_le_left _ _
  have hcap : (s.calculate_current_tokens now).capacity = s.capacity :=
    calculate_capacity_eq s now
  have hdebit : ∀ m : ℕ, (m : ℚ) ≤ (s.calculate_current_tokens now).available_tokens →
      ({ s.calculate_current_tokens now with
           available_tokens :=
             (s.calculate_current_tokens now).available_tokens - (m : ℚ) }
        : RateLimiter).Inv := by
    intro m hm
    constructor
    · simp only
      linarith
    · simp only [hcap]
      have h2 := hInvCalc.2
      rw [hcap] at h2
      have : (0 : ℚ) ≤ (m : ℚ) := by positivity
      linarith
  have hzero : ∀ r : ℚ, ({ s.calculate_current_tokens now with
      available_tokens := 0, last_update := r } : RateLimiter).Inv := by
    intro r
    constructor
    · simp only
      exact le_refl 0
    · simp only [hcap]
      positivity
  refine ⟨hcalc, hInvCalc, ?_, ?_, ?_, ?_⟩
  · unfold RateLimiter.try_acquire
    dsimp only
    split
    · exact hInvCalc
    · rename_i hge
      exact hdebit n (not_lt.mp hge)
  · unfold RateLimiter.acquire
    dsimp only
    split
    · rename_i hge
      exact hdebit n hge
    · exact hzero resume
  · unfold RateLimiter.acquire_with_timeout
    dsimp only
    split
    · rename_i hge
      exact hdebit n hge
    · split
      · exact hInvCalc
      · exact hzero resume
  · unfold RateLimiter.available
    exact hInvCalc

/-- Witness for C6: a limiter with capacity 5, rate 1 and 3 tokens, checked
one second after its last update, with a 2-token request and a 1-second
timeout. -/
theorem token_bucket_invariant_witness :
    ((⟨5, 1, 3, 0⟩ : RateLimiter).Inv ∧ (0 : ℚ) ≤ 1 ∧
      (0 : ℚ) ≤ (⟨5, 1, 3, 0⟩ : RateLimiter).refill_rate) ∧
    ((⟨5, 1, 3, 0⟩ : RateLimiter).calculate_current_tokens 1 =
      { capacity := 5, refill_rate := 1
        available_tokens :=
          min ((5 : ℚ)) ((3 : ℚ) + 1 * ((1 : ℚ) - 0))
        last_update := 1 } ∧
     ((⟨5, 1, 3, 0⟩ : RateLimiter).calculate_current_tokens 1).Inv ∧
     ((⟨5, 1, 3, 0⟩ : RateLimiter).try_acquire 1 2).2.Inv ∧
     ((⟨5, 1, 3, 0⟩ : RateLimiter).acquire 1 2 2).2.Inv ∧
     ((⟨5, 1, 3, 0⟩ : RateLimiter).acquire_with_timeout 1 2 2 1).2.Inv ∧
     ((⟨5, 1, 3, 0⟩ : RateLimiter).available 1).2.Inv) := by
  have hInv : (⟨5, 1, 3, 0⟩ : RateLimiter).Inv := by
    constructor <;> norm_num [RateLimiter.Inv]
  exact ⟨⟨hInv, by norm_num, by norm_num⟩,
    token_bucket_invariant (⟨5, 1, 3, 0⟩ : RateLimiter) 1 2 1 2 hInv
      (by norm_num) (by norm_num)⟩

/-! ### Claim theorems: batch lookups -/

/-- C8: a batch lookup given more than 200 identifiers fails with the
TooManyIds-style error carrying exactly the slice length, with no HTTP
request issued; at most 200 identifiers always pass this check. -/
theorem too_many_ids_spec (getL : String → Except GetError (List Listings))
    (getP : String → Except GetError (List Price)) (ids : List ItemId) :
    (200 < ids.length →
      get_many_listings getL ids = ([], .error (.TooManyListingIds ids.length)) ∧
      get_many_prices getP ids = ([], .error (.TooManyItemIds ids.length))) ∧
    (ids.length ≤ 200 →
      (∀ c, (get_many_listings getL ids).2 ≠ .error (.TooManyListingIds c)) ∧
      (∀ c, (get_many_prices getP ids).2 ≠ .error (.TooManyItemIds c))) := by
  constructor
  · intro h
    constructor
    · unfold get_many_listings
      rw [if_pos h]
    · unfold get_many_prices
      rw [if_pos h]
  · intro h
    constructor
    · intro c
      unfold get_many_listings
      rw [if_neg (not_lt.mpr h)]
      split
      · simp
      · dsimp only
        split <;> simp
    · intro c
      unfold get_many_prices
      rw [if_neg (not_lt.mpr h)]
      split
      · simp
      · dsimp only
        split <;> simp

/-- A concrete slice of 201 identifiers for the C8 witness. -/
def idsOver : List ItemId := List.replicate 201 ⟨1⟩

/-- A stub transport for the C8 witness. -/
def getListingsStub : String → Except GetError (List Listings) :=
  fun _ => .ok []

/-- A stub transport for the C8 witness. -/
def getPricesStub : String → Except GetError (List Price) :=
  fun _ => .ok []

/-- Witness for C8: 201 identifiers are rejected by both batch lookups with
count 201 and an empty request list. -/
theorem too_many_ids_spec_witness :
    200 < idsOver.length ∧ idsOver.length = 201 ∧
    (get_many_listings getListingsStub idsOver =
      ([], .error (.TooManyListingIds idsOver.length)) ∧
     get_many_prices getPricesStub idsOver =
      ([], .error (.TooManyItemIds idsOver.length))) := by
  have hlen : idsOver.length = 201 := by
    unfold idsOver
    exact List.length_replicate 201 _
  exact ⟨by omega, hlen,
    (too_many_ids_spec getListingsStub getPricesStub idsOver).1 (by omega)⟩

/-- C10: calling either batch lookup with an empty identifier slice returns
an empty collection without issuing any HTTP request (and hence without
debiting the rate limiter, which is only touched by `Client::get`). -/
theorem empty_ids_spec (getL : String → Except GetError (List Listings))
    (getP : String → Except GetError (List Price)) :
    get_many_listings getL [] = ([], .ok []) ∧
    get_many_prices getP [] = ([], .ok []) := by
  constructor <;> rfl

/-! ### Claim theorems: paginated header handling -/

/-- `parse_required_header` never produces a body-deserialization error:
its only error constructors are `MissingHeaderError` and
`HeaderParseError`. -/
theorem parse_required_header_no_deser
    (headers : List (String × HeaderValue)) (name : String) (msg : String) :
    parse_required_header headers name ≠
      .error (.DeserializationError msg) := by
  unfold parse_required_header
  cases headerGet headers name with
  | none => simp
  | some v =>
    cases hv : v.is_utf8 <;> simp only [hv]
    · simp
    · cases parseUsize v.text <;> simp

/-- A missing header makes `parse_required_header` fail with
`MissingHeaderError` naming it. -/
theorem parse_required_header_missing
    (headers : List (String × HeaderValue)) (name : String)
    (h : headerGet headers name = none) :
    parse_required_header headers name = .error (.MissingHeaderError name) := by
  unfold parse_required_header
  rw [h]

/-- C2: for a paginated response with a success status, `get_paginated`
parses all four required headers before the body: removing any one header
from an otherwise-valid response yields `MissingHeaderError` naming exactly
that header (never a body-decode error), and a `DeserializationError`
result entails that all four headers parsed successfully, so header errors
take precedence over body-decoding errors. -/
theorem header_precedence_spec {Body : Type}
    (send : String → Except String (HttpResponse Body))
    (base_url : String) (params : PaginationParams)
    (response : HttpResponse Body)
    (hsend : send (paginatedUrl base_url params) = .ok response)
    (hstatus : statusIsSuccess response.status = true) :
    (∀ name, name ∈ requiredHeaders →
      headerGet response.headers name = none →
      (∀ other, other ∈ requiredHeaders → other ≠ name →
        ∃ k, parse_required_header response.headers other = .ok k) →
      get_paginated send base_url params =
        .error (.MissingHeaderError name)) ∧
    (∀ msg,
      get_paginated send base_url params =
        .error (.DeserializationError msg) →
      ∀ name, name ∈ requiredHeaders →
        ∃ k, parse_required_header response.headers name = .ok k) := by
  constructor
  · intro name hmem hmiss hothers
    have hname := parse_required_header_missing response.headers name hmiss
    simp only [requiredHeaders, List.mem_cons, List.not_mem_nil, or_false] at hmem
    unfold get_paginated
    dsimp only
    rw [hsend]
    simp only [hstatus, if_true]
    rcases hmem with rfl | rfl | rfl | rfl
    · rw [hname]
    · obtain ⟨k1, hk1⟩ := hothers "X-Page-Size" (by simp [requiredHeaders])
        (by simp)
      rw [hk1, hname]
    · obtain ⟨k1, hk1⟩ := hothers "X-Page-Size" (by simp [requiredHeaders])
        (by simp)
      obtain ⟨k2, hk2⟩ := hothers "X-Page-Total" (by simp [requiredHeaders])
        (by simp)
      rw [hk1, hk2, hname]
    · obtain ⟨k1, hk1⟩ := hothers "X-Page-Size" (by simp [requiredHeaders])
        (by simp)
      obtain ⟨k2, hk2⟩ := hothers "X-Page-Total" (by simp [requiredHeaders])
        (by simp)
      obtain ⟨k3, hk3⟩ := hothers "X-Result-Count" (by simp [requiredHeaders])
        (by simp)
      rw [hk1, hk2, hk3, hname]
  · intro msg hres
    unfold get_paginated at hres
    dsimp only at hres
    rw [hsend] at hres
    simp only [hstatus, if_true] at hres
    cases h1 : parse_required_header response.headers "X-Page-Size" with
    | error e =>
      rw [h1] at hres
      simp only [Except.error.injEq] at hres
      exact absurd (h1.trans (congrArg Except.error hres))
        (parse_required_header_no_deser response.headers "X-Page-Size" msg)
    | ok k1 =>
      rw [h1] at hres
      cases h2 : parse_required_header response.headers "X-Page-Total" with
      | error e =>
        rw [h2] at hres
        simp only [Except.error.injEq] at hres
        exact absurd (h2.trans (congrArg Except.error hres))
          (parse_required_header_no_deser response.headers "X-Page-Total" msg)
      | ok k2 =>
        rw [h2] at hres
        cases h3 : parse_required_header response.headers "X-Result-Count" with
        | error e =>
          rw [h3] at hres
          simp only [Except.error.injEq] at hres
          exact absurd (h3.trans (congrArg Except.error hres))
            (parse_required_header_no_deser response.headers "X-Result-Count" msg)
        | ok k3 =>
          rw [h3] at hres
          cases h4 : parse_required_header response.headers "X-Result-Total" with
          | error e =>
            rw [h4] at hres
            simp only [Except.error.injEq] at hres
            exact absurd (h4.trans (congrArg Except.error hres))
              (parse_required_header_no_deser response.headers "X-Result-Total" msg)
          | ok k4 =>
            intro name hmem
            simp only [requiredHeaders, List.mem_cons, List.not_mem_nil,
              or_false] at hmem
            rcases hmem with rfl | rfl | rfl | rfl
            · exact ⟨k1, h1⟩
            · exact ⟨k2, h2⟩
            · exact ⟨k3, h3⟩
            · exact ⟨k4, h4⟩

/-- A concrete success response whose headers lack `X-Page-Total` but carry
the other three required headers, with a decodable body, for the C2
witness. -/
def respMissingTotal : HttpResponse (List ℕ) :=
  { status := 200
    headers := [("X-Page-Size", ⟨true, "200"⟩),
                ("X-Result-Count", ⟨true, "1"⟩),
                ("X-Result-Total", ⟨true, "1"⟩)]
    body_text := "[]"
    body_json := .ok [] }

/-- A stub transport returning `respMissingTotal`, for the C2 witness. -/
def sendMissingTotal : String → Except String (HttpResponse (List ℕ)) :=
  fun _ => .ok respMissingTotal

/-- Witness for C2: the response missing only `X-Page-Total` makes
`get_paginated` fail with `MissingHeaderError "X-Page-Total"`, not a
body-decode error, even though its body decodes fine. -/
theorem header_precedence_spec_witness :
    (sendMissingTotal (paginatedUrl "https://api.guildwars2.com/v2/commerce/prices"
        ⟨0, 200⟩) = .ok respMissingTotal ∧
     statusIsSuccess respMissingTotal.status = true ∧
     headerGet respMissingTotal.headers "X-Page-Total" = none ∧
     respMissingTotal.body_json = .ok []) ∧
    get_paginated sendMissingTotal "https://api.guildwars2.com/v2/commerce/prices"
        ⟨0, 200⟩ = .error (.MissingHeaderError "X-Page-Total") := by
  have hsend : sendMissingTotal
      (paginatedUrl "https://api.guildwars2.com/v2/commerce/prices" ⟨0, 200⟩) =
      .ok respMissingTotal := rfl
  have hstatus : statusIsSuccess respMissingTotal.status = true := rfl
  have hmiss : headerGet respMissingTotal.headers "X-Page-Total" = none := by
    decide
  have hothers : ∀ other, other ∈ requiredHeaders → other ≠ "X-Page-Total" →
      ∃ k, parse_required_header respMissingTotal.headers other = .ok k := by
    intro other hmem hne
    simp only [requiredHeaders, List.mem_cons, List.not_mem_nil, or_false] at hmem
    rcases hmem with rfl | rfl | rfl | rfl
    · exact ⟨200, by rfl⟩
    · exact absurd rfl hne
    · exact ⟨1, by rfl⟩
    · exact ⟨1, by rfl⟩
  exact ⟨⟨hsend, hstatus, hmiss, rfl⟩,
    (header_precedence_spec sendMissingTotal
      "https://api.guildwars2.com/v2/commerce/prices" ⟨0, 200⟩ respMissingTotal
      hsend hstatus).1 "X-Page-Total" (by simp [requiredHeaders]) hmiss hothers⟩

/-! ### Claim theorems: page aggregation -/

/-- When every page the loop will request succeeds, `fetchRemaining`
starting after page `j` with `n` iterations requests exactly pages
`j+1, ..., j+n` in ascending order with an unchanged page size, and
appends their data in order. -/
theorem fetchRemaining_all_ok {Item : Type}
    (fetch : PaginationParams → Except PaginatedGetError (Paginated (List Item)))
    (pages : ℕ → Paginated (List Item)) (sz : ℕ) :
    ∀ (n j : ℕ) (acc : List Item),
    (∀ k, j + 1 ≤ k → k ≤ j + n → fetch ⟨k, sz⟩ = .ok (pages k)) →
    fetchRemaining fetch ⟨j, sz⟩ acc n =
      ((List.range' (j + 1) n).map (fun k => (⟨k, sz⟩ : PaginationParams)),
       .ok (acc ++ ((List.range' (j + 1) n).map (fun k => (pages k).data)).flatten)) := by
  intro n
  induction n with
  | zero =>
    intro j acc _
    simp [fetchRemaining]
  | succ n ih =>
    intro j acc h
    have hcur : fetch (⟨j + 1, sz⟩ : PaginationParams) = .ok (pages (j + 1)) :=
      h (j + 1) (le_refl _) (by omega)
    have hnext : (⟨j, sz⟩ : PaginationParams).next = (⟨j + 1, sz⟩ : PaginationParams) := rfl
    unfold fetchRemaining
    dsimp only
    rw [hnext, hcur]
    dsimp only
    have hrec := ih (j + 1) (acc ++ (pages (j + 1)).data) (by
      intro k hk1 hk2
      exact h k (by omega) (by omega))
    rw [hrec]
    rw [List.range'_succ]
    simp [List.append_assoc]

/-- C1 (amended: the first page must report `pageTotal ≥ 1`): when every
page fetch succeeds and the first page's metadata reports `pageTotal = T ≥ 1`,
`get_all_pages` starting at page 0 issues exactly `T` page fetches, with
page indices `0, 1, ..., T-1` in strictly ascending order and a constant
page size, and returns the concatenation of all pages' data in page
order. -/
theorem get_all_pages_success {Item : Type}
    (fetch : PaginationParams → Except PaginatedGetError (Paginated (List Item)))
    (params : PaginationParams) (pages : ℕ → Paginated (List Item)) (T : ℕ)
    (hpage : params.page = 0)
    (hT : T = (pages 0).metadata.page_total)
    (hfetch : ∀ k, k < T → fetch ⟨k, params.page_size⟩ = .ok (pages k))
    (hpos : 1 ≤ T) :
    get_all_pages fetch params =
      ((List.range T).map (fun k => (⟨k, params.page_size⟩ : PaginationParams)),
       .ok (((List.range T).map (fun k => (pages k).data)).flatten)) ∧
    (get_all_pages fetch params).1.length = T := by
  obtain ⟨p0, sz⟩ := params
  simp only at hpage hfetch ⊢
  subst hpage
  obtain ⟨Tm, rfl⟩ : ∃ Tm, T = Tm + 1 := ⟨T - 1, by omega⟩
  have hfirst : fetch ⟨0, sz⟩ = .ok (pages 0) := hfetch 0 (by omega)
  have hmain : get_all_pages fetch ⟨0, sz⟩ =
      ((List.range (Tm + 1)).map (fun k => (⟨k, sz⟩ : PaginationParams)),
       .ok (((List.range (Tm + 1)).map (fun k => (pages k).data)).flatten)) := by
    unfold get_all_pages
    rw [hfirst]
    dsimp only
    rw [← hT]
    have hfuel : Tm + 1 - 1 = Tm := by omega
    rw [hfuel]
    have hrec := fetchRemaining_all_ok fetch pages sz Tm 0 (pages 0).data (by
      intro k hk1 hk2
      exact hfetch k (by omega))
    rw [hrec]
    rw [List.range_eq_range', List.range'_succ]
    simp
  refine ⟨hmain, ?_⟩
  rw [hmain]
  simp

/-- Constant per-page data and metadata (`pageTotal = 3`) for the C1
witness: page `k` carries the single item `k`. -/
def fetchThree : PaginationParams → Except PaginatedGetError (Paginated (List ℕ)) :=
  fun p => .ok { data := [p.page]
                 metadata := { page_size := 2, page_total := 3
                               result_count := 1, result_total := 3 } }

/-- The page family served by `fetchThree`. -/
def pageThree (k : ℕ) : Paginated (List ℕ) :=
  { data := [k]
    metadata := { page_size := 2, page_total := 3
                  result_count := 1, result_total := 3 } }

/-- Witness for C1: a paginated endpoint reporting `X-Page-Total: 3` makes
the aggregator issue exactly 3 fetches with pages 0, 1, 2 at page size 2
and return the three pages' items concatenated in page order. -/
theorem get_all_pages_success_witness :
    ((⟨0, 2⟩ : PaginationParams).page = 0 ∧
     3 = (pageThree 0).metadata.page_total ∧
     (∀ k, k < 3 → fetchThree ⟨k, 2⟩ = .ok (pageThree k)) ∧
     1 ≤ 3) ∧
    (get_all_pages fetchThree ⟨0, 2⟩ =
      ((List.range 3).map (fun k => (⟨k, 2⟩ : PaginationParams)),
       .ok (((List.range 3).map (fun k => (pageThree k).data)).flatten)) ∧
     (get_all_pages fetchThree ⟨0, 2⟩).1.length = 3) := by
  have hfetch : ∀ k, k < 3 → fetchThree ⟨k, 2⟩ = .ok (pageThree k) := by
    intro k _
    rfl
  exact ⟨⟨rfl, rfl, hfetch, by omega⟩,
    get_all_pages_success fetchThree ⟨0, 2⟩ pageThree 3 rfl rfl hfetch (by omega)⟩

/-- A fetch whose every response succeeds but reports `X-Page-Total: 0`,
refuting C1 as stated. -/
def fetchZeroTotal : PaginationParams → Except PaginatedGetError (Paginated (List ℕ)) :=
  fun _ => .ok { data := [7]
                 metadata := { page_size := 200, page_total := 0
                               result_count := 1, result_total := 1 } }

/-- Counterexample to C1 as stated: with every page fetch succeeding and
the first page reporting `pageTotal = 0`, the aggregator still issues one
fetch (for page 0), not `pageTotal = 0` fetches, and returns that page's
data rather than the empty concatenation of zero pages. -/
theorem get_all_pages_zero_total_counterexample :
    (∀ p, fetchZeroTotal p =
      .ok { data := [7]
            metadata := { page_size := 200, page_total := 0
                          result_count := 1, result_total := 1 } }) ∧
    (get_all_pages fetchZeroTotal PaginationParams.default).1.length = 1 ∧
    (get_all_pages fetchZeroTotal PaginationParams.default).2 = .ok [7] :=
  ⟨fun _ => rfl, rfl, rfl⟩

/-- When pages `j+1, ..., j+f` succeed and page `j+f+1` fails with `e`
(`f < n` remaining iterations), `fetchRemaining` requests exactly pages
`j+1, ..., j+f+1` and stops with `.error e`: no further fetches, no data
returned. -/
theorem fetchRemaining_err {Item : Type}
    (fetch : PaginationParams → Except PaginatedGetError (Paginated (List Item)))
    (pages : ℕ → Paginated (List Item)) (sz : ℕ) (e : PaginatedGetError) :
    ∀ (n j f : ℕ) (acc : List Item),
    f < n →
    (∀ k, j + 1 ≤ k → k ≤ j + f → fetch ⟨k, sz⟩ = .ok (pages k)) →
    fetch ⟨j + f + 1, sz⟩ = .error e →
    fetchRemaining fetch ⟨j, sz⟩ acc n =
      ((List.range' (j + 1) (f + 1)).map (fun k => (⟨k, sz⟩ : PaginationParams)),
       .error e) := by
  intro n
  induction n with
  | zero =>
    intro j f acc hf _ _
    omega
  | succ n ih =>
    intro j f acc hf hok hfail
    have hnext : (⟨j, sz⟩ : PaginationParams).next = (⟨j + 1, sz⟩ : PaginationParams) := rfl
    cases f with
    | zero =>
      have hfail1 : fetch (⟨j + 1, sz⟩ : PaginationParams) = .error e := by
        have harith : j + 0 + 1 = j + 1 := by omega
        rw [harith] at hfail
        exact hfail
      unfold fetchRemaining
      dsimp only
      rw [hnext, hfail1]
      rw [List.range'_succ]
      simp
    | succ ff =>
      have hcur : fetch (⟨j + 1, sz⟩ : PaginationParams) = .ok (pages (j + 1)) :=
        hok (j + 1) (le_refl _) (by omega)
      unfold fetchRemaining
      dsimp only
      rw [hnext, hcur]
      dsimp only
      have hfail1 : fetch ⟨(j + 1) + ff + 1, sz⟩ = .error e := by
        have harith : (j + 1) + ff + 1 = j + (ff + 1) + 1 := by omega
        rw [harith]
        exact hfail
      have hrec := ih (j + 1) ff (acc ++ (pages (j + 1)).data) (by omega)
        (by
          intro k hk1 hk2
          exact hok k (by omega) (by omega))
        hfail1
      rw [hrec]
      simp [List.range'_succ]

/-- C7: if the fetch of any single page fails, the whole aggregation
returns that page's error, issues no further page fetches, and returns none
of the data accumulated from earlier pages: the fetch trace stops at the
failing page `m` and the result is exactly `.error e`. -/
theorem get_all_pages_abort {Item : Type}
    (fetch : PaginationParams → Except PaginatedGetError (Paginated (List Item)))
    (params : PaginationParams) (pages : ℕ → Paginated (List Item))
    (e : PaginatedGetError) (m : ℕ)
    (hpage : params.page = 0)
    (hok : ∀ k, k < m → fetch ⟨k, params.page_size⟩ = .ok (pages k))
    (hfail : fetch ⟨m, params.page_size⟩ = .error e)
    (hm : m = 0 ∨ m < (pages 0).metadata.page_total) :
    get_all_pages fetch params =
      ((List.range (m + 1)).map (fun k => (⟨k, params.page_size⟩ : PaginationParams)),
       .error e) := by
  obtain ⟨p0, sz⟩ := params
  simp only at hpage hok hfail ⊢
  subst hpage
  cases m with
  | zero =>
    unfold get_all_pages
    rw [hfail]
    simp [List.range_eq_range', List.range'_succ]
  | succ mm =>
    have hT : mm + 1 < (pages 0).metadata.page_total := by
      rcases hm with h0 | hlt
      · omega
      · exact hlt
    have hfirst : fetch ⟨0, sz⟩ = .ok (pages 0) := hok 0 (by omega)
    unfold get_all_pages
    rw [hfirst]
    dsimp only
    have hfail1 : fetch ⟨0 + mm + 1, sz⟩ = .error e := by
      have harith : 0 + mm + 1 = mm + 1 := by omega
      rw [harith]
      exact hfail
    have hrec := fetchRemaining_err fetch pages sz e
      ((pages 0).metadata.page_total - 1) 0 mm (pages 0).data (by omega)
      (by
        intro k hk1 hk2
        exact hok k (by omega))
      hfail1
    rw [hrec]
    simp [List.range_eq_range', List.range'_succ]

/-- Pages 0 and 1 succeed, page 2 fails, under a reported total of 4, for
the C7 witness. -/
def fetchFailAt2 : PaginationParams → Except PaginatedGetError (Paginated (List ℕ)) :=
  fun p =>
    if p.page < 2 then
      .ok { data := [p.page]
            metadata := { page_size := 1, page_total := 4
                          result_count := 1, result_total := 4 } }
    else
      .error (.Http "connection reset")

/-- The successful page family served by `fetchFailAt2`. -/
def pageFailAt2 (k : ℕ) : Paginated (List ℕ) :=
  { data := [k]
    metadata := { page_size := 1, page_total := 4
                  result_count := 1, result_total := 4 } }

/-- Witness for C7: with page 2 failing mid-aggregation, `get_all_pages`
issues fetches for pages 0, 1, 2 only and returns the page-2 error with
none of the earlier pages' data. -/
theorem get_all_pages_abort_witness :
    ((⟨0, 1⟩ : PaginationParams).page = 0 ∧
     (∀ k, k < 2 → fetchFailAt2 ⟨k, 1⟩ = .ok (pageFailAt2 k)) ∧
     fetchFailAt2 ⟨2, 1⟩ = .error (.Http "connection reset") ∧
     (2 = 0 ∨ 2 < (pageFailAt2 0).metadata.page_total)) ∧
    get_all_pages fetchFailAt2 ⟨0, 1⟩ =
      ((List.range 3).map (fun k => (⟨k, 1⟩ : PaginationParams)),
       .error (.Http "connection reset")) := by
  have hok : ∀ k, k < 2 → fetchFailAt2 ⟨k, 1⟩ = .ok (pageFailAt2 k) := by
    intro k hk
    interval_cases k <;> rfl
  have hfail : fetchFailAt2 ⟨2, 1⟩ = .error (.Http "connection reset") := rfl
  have hm : (2 : ℕ) = 0 ∨ 2 < (pageFailAt2 0).metadata.page_total := by
    right
    norm_num [pageFailAt2]
  exact ⟨⟨rfl, hok, hfail, hm⟩,
    get_all_pages_abort fetchFailAt2 ⟨0, 1⟩ pageFailAt2
      (.Http "connection reset") 2 rfl hok hfail hm⟩
